import Mathlib

/-!
Shallow embedding of `src/index.ts` (notification-mcp): an MCP server with
five tool handlers (get-alerts, get-forecast, register-notification,
get-user-notifications, get-latest-token-price).

Modelling conventions:
* Provider JSON is decoded by an unchecked `as T` cast in the source, so a
  runtime value need not match the declared TypeScript interface; every field
  that the code could observe as `undefined` is modelled as an `Option`.
* A JavaScript exception is a `JsError` (name and message); a handler that can
  throw past its boundary returns `Except JsError _`.  The two weather
  handlers have no try/catch of their own: `get-alerts` throws when an alert
  feature lacks a `properties` object, and `get-forecast` throws when an entry
  of the `periods` array is `null`.  The three localhost handlers wrap their
  whole bodies in try/catch and are total.
* Each handler takes the provider response(s) it would receive as explicit
  arguments and returns, alongside its result, the list of URLs it requested,
  in order. A request that fails at the network level still appears in the
  list (the outbound call was attempted).
* JS `x || fallback` on strings is `jsOrStr` (empty string is falsy), and on
  numbers is `jsOrNum` (0 is falsy).
* Coordinates are JS numbers, modelled as rationals; `jsToFixed4` models
  `Number.prototype.toFixed(4)` per the ECMAScript algorithm (round half away
  from zero after taking the absolute value, then place the decimal point
  before the last four digits).  The generic JS number-to-string used in
  display texts is approximated by `Rat.repr`; no verified claim depends on
  that text.
-/

namespace NotificationMcp

/-- A JavaScript error value: its `name` (for example `TypeError`) and message.
`jsErrorToString` models `Error.prototype.toString` as used by a template
literal splice. -/
structure JsError where
  name : String
  message : String
deriving Repr, DecidableEq

def jsErrorToString (e : JsError) : String :=
  if e.message = "" then e.name else e.name ++ ": " ++ e.message

/-- JS `v || fallback` for an optional string field: `undefined` and the empty
string are falsy. -/
def jsOrStr (v : Option String) (fallback : String) : String :=
  match v with
  | some s => if s = "" then fallback else s
  | none => fallback

/-- JS `v || fallback` spliced into a template literal, for an optional numeric
field: `undefined` and `0` are falsy; otherwise the number is printed. -/
def jsOrNum (v : Option Int) (fallback : String) : String :=
  match v with
  | some t => if t = 0 then fallback else toString t
  | none => fallback

/-- One element of a handler response's `content` array: `{type: "text", text}`. -/
structure TextContent where
  type : String
  text : String
deriving Repr, DecidableEq

/-- A handler's response envelope: `{content: [...]}`. -/
structure ToolResult where
  content : List TextContent
deriving Repr, DecidableEq

/-- `{content: [{type: "text", text: t}]}` — the envelope every `return` in the
source builds. -/
def mkText (t : String) : ToolResult :=
  ⟨[⟨"text", t⟩]⟩

def NWS_API_BASE : String := "https://api.weather.gov"

/-- `AlertFeature.properties` in the source (all five fields optional). -/
structure AlertProps where
  event : Option String
  areaDesc : Option String
  severity : Option String
  status : Option String
  headline : Option String
deriving Repr, DecidableEq

/-- An element of the alerts response's `features` array.  The TypeScript
interface declares `properties` as required, but the JSON cast is unchecked,
so at runtime it may be absent — `formatAlert` then throws. -/
structure AlertFeature where
  properties : Option AlertProps
deriving Repr, DecidableEq

/-- `formatAlert`.  Reading `props.event` when `properties` is `undefined`
throws a `TypeError` in JS; otherwise the five labelled lines and the `---`
separator are joined by newlines. -/
def formatAlert (feature : AlertFeature) : Except JsError String :=
  match feature.properties with
  | none =>
      Except.error ⟨"TypeError", "Cannot read properties of undefined (reading 'event')"⟩
  | some props =>
      Except.ok (String.intercalate "\n" [
        "Event: " ++ jsOrStr props.event "Unknown",
        "Area: " ++ jsOrStr props.areaDesc "Unknown",
        "Severity: " ++ jsOrStr props.severity "Unknown",
        "Status: " ++ jsOrStr props.status "Unknown",
        "Headline: " ++ jsOrStr props.headline "No headline",
        "---"])

/-- `AlertsResponse`; `features` may be absent at runtime (the code guards it
with `|| []`). -/
structure AlertsResponse where
  features : Option (List AlertFeature)
deriving Repr, DecidableEq

/-- The `get-alerts` handler.  `alertsData` is the result of
`makeNWSRequest` (`none` models any network / non-2xx / JSON failure, all
swallowed inside `makeNWSRequest`).  Returns the handler's outcome — an
envelope, or the JS error it throws — together with the requested URLs. -/
def getAlerts (state : String) (alertsData : Option AlertsResponse) :
    Except JsError ToolResult × List String :=
  let stateCode := state.toUpper
  let alertsUrl := NWS_API_BASE ++ "/alerts?area=" ++ stateCode
  match alertsData with
  | none => (Except.ok (mkText "Failed to retrieve alerts data"), [alertsUrl])
  | some d =>
      let features := d.features.getD []
      if features.length = 0 then
        (Except.ok (mkText ("No active alerts for " ++ stateCode)), [alertsUrl])
      else
        match features.mapM formatAlert with
        | Except.error e => (Except.error e, [alertsUrl])
        | Except.ok formattedAlerts =>
            (Except.ok (mkText ("Active alerts for " ++ stateCode ++ ":\n\n" ++
              String.intercalate "\n" formattedAlerts)), [alertsUrl])

/-- `ForecastPeriod` (all fields optional). -/
structure ForecastPeriod where
  name : Option String
  temperature : Option Int
  temperatureUnit : Option String
  windSpeed : Option String
  windDirection : Option String
  shortForecast : Option String
deriving Repr, DecidableEq

/-- The five-line array built for one forecast period before `join("\n")`.
`"Â°"` is the degree-sign byte sequence exactly as it appears in the
source file. -/
def periodLines (period : ForecastPeriod) : List String :=
  [jsOrStr period.name "Unknown" ++ ":",
   "Temperature: " ++ jsOrNum period.temperature "Unknown" ++ "Â°" ++
     jsOrStr period.temperatureUnit "F",
   "Wind: " ++ jsOrStr period.windSpeed "Unknown" ++ " " ++
     jsOrStr period.windDirection "",
   jsOrStr period.shortForecast "No forecast available",
   "---"]

def formatPeriod (period : ForecastPeriod) : String :=
  String.intercalate "\n" (periodLines period)

/-- The body of the `periods.map(...)` callback applied to one decoded array
entry.  Reading `period.name` when the entry is `null` throws a `TypeError` in
JS; an object entry formats totally. -/
def formatPeriodEntry (entry : Option ForecastPeriod) : Except JsError String :=
  match entry with
  | none => Except.error ⟨"TypeError", "Cannot read properties of null (reading 'name')"⟩
  | some period => Except.ok (formatPeriod period)

structure PointsProps where
  forecast : Option String
deriving Repr, DecidableEq

/-- `PointsResponse`; the code reads `pointsData.properties?.forecast`, so
`properties` itself may be absent. -/
structure PointsResponse where
  properties : Option PointsProps
deriving Repr, DecidableEq

/-- `ForecastProps.periods`; the cast is unchecked, so the array may be absent
(the code guards with `|| []`) and an element of the array may be `null` in
the decoded JSON — modelled as a `none` entry, on which the period formatter
throws. -/
structure ForecastProps where
  periods : Option (List (Option ForecastPeriod))
deriving Repr, DecidableEq

/-- `ForecastResponse`; the code reads `forecastData.properties?.periods || []`. -/
structure ForecastResponse where
  properties : Option ForecastProps
deriving Repr, DecidableEq

/-- The last four digits of the scaled integer produced by `toFixed(4)`,
zero-padded to width 4. -/
def pad4 (n : ℕ) : String :=
  String.mk [Nat.digitChar (n / 1000 % 10), Nat.digitChar (n / 100 % 10),
    Nat.digitChar (n / 10 % 10), Nat.digitChar (n % 10)]

/-- `Number.prototype.toFixed(4)` per the ECMAScript algorithm for the
magnitudes at hand: take the sign, round `|q| * 10^4` to the nearest integer
(ties away from zero), and place the decimal point before the last four
digits. -/
def jsToFixed4 (q : ℚ) : String :=
  let sign := if q < 0 then "-" else ""
  let n : ℕ := (⌊|q| * 10000 + 1/2⌋).toNat
  sign ++ Nat.repr (n / 10000) ++ "." ++ pad4 (n % 10000)

/-- Approximation of JS number-to-string for the display texts (header and
grid-failure message); no verified claim inspects this string. -/
def jsNumToString (q : ℚ) : String := toString q

/-- The `pointsUrl` local of the `get-forecast` handler. -/
def pointsUrlOf (latitude longitude : ℚ) : String :=
  NWS_API_BASE ++ "/points/" ++ jsToFixed4 latitude ++ "," ++ jsToFixed4 longitude

/-- The `get-forecast` handler.  `pointsData` is the first `makeNWSRequest`
result; `forecastData` is the response the second request would yield if it is
issued.  The returned URL list records which requests were actually made.
The handler has no try/catch, so the `TypeError` thrown by the `periods.map`
callback on a `null` array entry escapes it — hence the `Except` outcome. -/
def getForecast (latitude longitude : ℚ) (pointsData : Option PointsResponse)
    (forecastData : Option ForecastResponse) : Except JsError ToolResult × List String :=
  let pointsUrl := pointsUrlOf latitude longitude
  match pointsData with
  | none =>
      (Except.ok (mkText ("Failed to retrieve grid point data for coordinates: " ++
        jsNumToString latitude ++ ", " ++ jsNumToString longitude ++
        ". This location may not be supported by the NWS API (only US locations are supported).")),
       [pointsUrl])
  | some pd =>
      let forecastUrl := (pd.properties.bind (fun p => p.forecast)).getD ""
      if forecastUrl = "" then
        (Except.ok (mkText "Failed to get forecast URL from grid point data"), [pointsUrl])
      else
        match forecastData with
        | none =>
            (Except.ok (mkText "Failed to retrieve forecast data"), [pointsUrl, forecastUrl])
        | some fd =>
            let periods := (fd.properties.bind (fun p => p.periods)).getD []
            if periods.length = 0 then
              (Except.ok (mkText "No forecast periods available"), [pointsUrl, forecastUrl])
            else
              match periods.mapM formatPeriodEntry with
              | Except.error e => (Except.error e, [pointsUrl, forecastUrl])
              | Except.ok formattedForecast =>
                  (Except.ok (mkText ("Forecast for " ++ jsNumToString latitude ++ ", " ++
                    jsNumToString longitude ++ ":\n\n" ++
                    String.intercalate "\n" formattedForecast)),
                   [pointsUrl, forecastUrl])

/-- The settled `fetch` + `response.text()` of the POST in
`register-notification`: an HTTP status (which `fetch` never throws on) and
the body text. -/
structure HttpTextResponse where
  status : Nat
  body : String
deriving Repr, DecidableEq

/-- The `register-notification` handler.  `postResult` is `Except.error e` when
`fetch` rejects (or reading the body fails); note the success branch never
consults `status`. -/
def registerNotification (session_id token targetPrice : String)
    (postResult : Except JsError HttpTextResponse) : ToolResult × List String :=
  let url := "http://localhost:3001/api/notification"
  match postResult with
  | Except.ok response =>
      (mkText ("âœ… Price alert registered successfully:\n\n" ++ response.body),
       [url])
  | Except.error e =>
      (mkText ("âŒ Failed to register alert: " ++ jsErrorToString e), [url])

/-- `UserNotification` as declared in the source. -/
structure UserNotification where
  id : String
  session_id : String
  token : String
  targetPrice : String
  condition : String
deriving Repr, DecidableEq

/-- `UserNotificationResponse`; the cast is unchecked so `userNotifications`
may be absent (the code guards with `!notifications`). -/
structure UserNotificationResponse where
  userNotifications : Option (List UserNotification)
  message : Option String
deriving Repr, DecidableEq

/-- The `get-user-notifications` handler.  `fetchResult` is the settled
`fetch` + `response.json()`; an error is caught and rendered with
`error.message || "Unknown error"`. -/
def getUserNotifications (session_id : String)
    (fetchResult : Except JsError UserNotificationResponse) : ToolResult × List String :=
  let url := "http://localhost:3001/api/userNotification?session_id=" ++ session_id
  match fetchResult with
  | Except.error e =>
      (mkText ("âŒ Failed to fetch notifications: " ++
        (if e.message = "" then "Unknown error" else e.message)), [url])
  | Except.ok data =>
      match data.userNotifications with
      | none =>
          (mkText ("â„¹ï¸ No notifications found for session: " ++
            session_id), [url])
      | some notifications =>
          if notifications.length = 0 then
            (mkText ("â„¹ï¸ No notifications found for session: " ++
              session_id), [url])
          else
            let formatted := String.intercalate "\n"
              (notifications.enum.map (fun p =>
                "#" ++ toString (p.1 + 1) ++ " - Token: " ++ p.2.token ++
                ", Target: " ++ p.2.targetPrice ++ ", Condition: " ++ p.2.condition))
            (mkText ("ðŸ“¬ Notifications for session **" ++ session_id ++
              "**:\n\n" ++ formatted), [url])

/-- The settled `fetch` of `get-latest-token-price`: the `ok` flag and, as the
data is passed through opaquely, the string `JSON.stringify(data.latestTokenPrices, null, 2)`
would produce. -/
structure TokenPriceResponse where
  ok : Bool
  pretty : String
deriving Repr, DecidableEq

/-- The `get-latest-token-price` handler.  A non-ok status throws
`Error("Failed to fetch latest token prices")`, caught by the handler's own
`catch` and spliced via `${error}`. -/
def getLatestTokenPrice (fetchResult : Except JsError TokenPriceResponse) :
    ToolResult × List String :=
  let url := "http://localhost:3001/api/latestTokenPrice"
  match fetchResult with
  | Except.error e =>
      (mkText ("Error retrieving latest token prices: " ++ jsErrorToString e), [url])
  | Except.ok resp =>
      if resp.ok then
        (mkText ("Latest Token Prices:\n\n" ++ resp.pretty), [url])
      else
        (mkText ("Error retrieving latest token prices: " ++
          jsErrorToString ⟨"Error", "Failed to fetch latest token prices"⟩), [url])

/-- Number of characters after the last `.` of a string (the whole string if it
has no `.`). -/
def decimalCount (s : String) : ℕ :=
  (s.data.reverse.takeWhile (fun c => c != '.')).length

/-- The `features` list the `get-alerts` handler iterates over, for a given
adapter result: `alertsData.features || []` when the lookup succeeded, nothing
otherwise (the handler returns before reaching it). -/
def featuresOf (alertsData : Option AlertsResponse) : List AlertFeature :=
  match alertsData with
  | none => []
  | some d => d.features.getD []

/-- The `periods` entry list the `get-forecast` handler iterates over, for a
given second-call result: `forecastData.properties?.periods || []` when that
call succeeded, nothing otherwise (the handler returns before reaching it). -/
def periodsOf (forecastData : Option ForecastResponse) : List (Option ForecastPeriod) :=
  match forecastData with
  | none => []
  | some fd => (fd.properties.bind (fun p => p.periods)).getD []

/-- Replace a present-but-empty string field by an absent one; used to state
that JS truthiness makes the two indistinguishable to the formatters. -/
def emptyToNone (o : Option String) : Option String :=
  match o with
  | some s => if s = "" then none else some s
  | none => none

/-! ### Helper lemmas -/

lemma formatAlert_isOk (f : AlertFeature) (h : f.properties.isSome) :
    ∃ s, formatAlert f = Except.ok s := by
  cases hp : f.properties with
  | none => rw [hp] at h; simp at h
  | some props => exact ⟨_, by unfold formatAlert; rw [hp]⟩

lemma formatPeriodEntry_isOk (e : Option ForecastPeriod) (h : e.isSome) :
    ∃ s, formatPeriodEntry e = Except.ok s := by
  cases e with
  | none => simp at h
  | some period => exact ⟨_, rfl⟩

lemma mapM_isOk {α β : Type} (f : α → Except JsError β) (l : List α)
    (h : ∀ a ∈ l, ∃ b, f a = Except.ok b) :
    ∃ ys, l.mapM f = Except.ok ys := by
  induction l with
  | nil => exact ⟨[], rfl⟩
  | cons a t ih =>
    obtain ⟨b, hb⟩ := h a (List.mem_cons_self a t)
    obtain ⟨ys, hys⟩ := ih (fun x hx => h x (List.mem_cons_of_mem a hx))
    refine ⟨b :: ys, ?_⟩
    rw [List.mapM_cons, hb, hys]
    rfl

/-- The uncaught error path of `get-forecast`: a successful chain whose
`periods` array contains a `null` entry makes the handler throw a `TypeError`
past its boundary (same defect class as the `get-alerts` path of C1's
counterexample). -/
lemma getForecast_throws_on_null_period :
    (getForecast 40 (-75)
      (some ⟨some ⟨some "https://api.weather.gov/gridpoints/PHI/49,75/forecast"⟩⟩)
      (some ⟨some ⟨some [none]⟩⟩)).1 =
      Except.error ⟨"TypeError", "Cannot read properties of null (reading 'name')"⟩ := rfl

lemma digitChar_mod_ne_dot (n : ℕ) : (Nat.digitChar (n % 10) != '.') = true := by
  have h : n % 10 < 10 := Nat.mod_lt _ (by norm_num)
  revert h
  exact (by decide : ∀ m < 10, (Nat.digitChar m != '.') = true) (n % 10)

lemma decimalCount_append_pad4 (s : String) (n : ℕ) :
    decimalCount (s ++ "." ++ pad4 n) = 4 := by
  have h1 := digitChar_mod_ne_dot (n / 1000)
  have h2 := digitChar_mod_ne_dot (n / 100)
  have h3 := digitChar_mod_ne_dot (n / 10)
  have h4 := digitChar_mod_ne_dot n
  unfold decimalCount pad4
  have hdot : ".".data = ['.'] := rfl
  have hmk : ∀ l : List Char, (String.mk l).data = l := fun l => rfl
  simp [String.data_append, hdot, hmk, List.reverse_append, List.takeWhile,
    h1, h2, h3, h4]

lemma decimalCount_jsToFixed4 (q : ℚ) : decimalCount (jsToFixed4 q) = 4 := by
  unfold jsToFixed4
  exact decimalCount_append_pad4 _ _

lemma jsOrStr_emptyToNone (o : Option String) (fallback : String) :
    jsOrStr (emptyToNone o) fallback = jsOrStr o fallback := by
  cases o with
  | none => rfl
  | some s =>
    unfold emptyToNone jsOrStr
    by_cases hs : s = "" <;> simp [hs]

/-! ### Claims -/

/-- C1 (counterexample): the claim that every failure path inside a handler is
caught fails on malformed provider JSON.  An alerts response whose single
feature lacks a `properties` object makes `formatAlert` throw a `TypeError`
that escapes the `get-alerts` handler, which has no try/catch of its own. -/
theorem c1_counterexample :
    (getAlerts "CA" (some ⟨some [⟨none⟩]⟩)).1 =
      Except.error ⟨"TypeError", "Cannot read properties of undefined (reading 'event')"⟩ := rfl

/-- C1 (amended): the three localhost handlers, whose bodies are wrapped in
try/catch, always return a response envelope; the two weather handlers have no
try/catch and throw a `TypeError` past their boundary on partially-absent
provider JSON — `get-alerts` when an alert feature lacks a `properties`
object, `get-forecast` when an entry of the `periods` array is `null`.  They
return an envelope whenever, respectively, every alert feature carries a
`properties` object and every `periods` entry is an object. -/
theorem c1_handlers_return_envelopes :
    (∀ state alertsData, (∀ f ∈ featuresOf alertsData, f.properties.isSome) →
      ∃ r, (getAlerts state alertsData).1 = Except.ok r) ∧
    (∀ lat lon pd fd, (∀ e ∈ periodsOf fd, e.isSome) →
      ∃ r, (getForecast lat lon pd fd).1 = Except.ok r) ∧
    (∀ sid tok tp pr, ∃ t, (registerNotification sid tok tp pr).1 = mkText t) ∧
    (∀ sid fr, ∃ t, (getUserNotifications sid fr).1 = mkText t) ∧
    (∀ fr, ∃ t, (getLatestTokenPrice fr).1 = mkText t) := by
  refine ⟨?_, ?_, ?_, ?_, ?_⟩
  · intro state alertsData h
    cases alertsData with
    | none => exact ⟨_, rfl⟩
    | some d =>
      simp only [featuresOf] at h
      simp only [getAlerts]
      split
      · exact ⟨_, rfl⟩
      · obtain ⟨ys, hys⟩ :=
          mapM_isOk formatAlert _ (fun f hf => formatAlert_isOk f (h f hf))
        rw [hys]
        exact ⟨_, rfl⟩
  · intro lat lon pd fd h
    cases pd with
    | none => exact ⟨_, rfl⟩
    | some pd =>
      cases fd with
      | none => simp only [getForecast]; split <;> exact ⟨_, rfl⟩
      | some fd =>
        simp only [periodsOf] at h
        simp only [getForecast]
        split
        · exact ⟨_, rfl⟩
        · split
          · exact ⟨_, rfl⟩
          · obtain ⟨ys, hys⟩ :=
              mapM_isOk formatPeriodEntry _
                (fun e he => formatPeriodEntry_isOk e (h e he))
            rw [hys]
            exact ⟨_, rfl⟩
  · intro sid tok tp pr
    cases pr <;> exact ⟨_, rfl⟩
  · intro sid fr
    cases fr with
    | error e => exact ⟨_, rfl⟩
    | ok d =>
      cases h : d.userNotifications with
      | none => simp only [getUserNotifications, h]; exact ⟨_, rfl⟩
      | some l => simp only [getUserNotifications, h]; split <;> exact ⟨_, rfl⟩
  · intro fr
    cases fr with
    | error e => exact ⟨_, rfl⟩
    | ok r => simp only [getLatestTokenPrice]; split <;> exact ⟨_, rfl⟩

/-- C1 witness: a well-formed single-alert response and a well-formed
single-period forecast chain both yield envelopes. -/
theorem c1_witness :
    (∃ r, (getAlerts "CA"
      (some ⟨some [⟨some ⟨some "Flood Warning", none, none, none, none⟩⟩]⟩)).1 =
        Except.ok r) ∧
    (∃ r, (getForecast 40 (-75)
      (some ⟨some ⟨some "https://api.weather.gov/gridpoints/PHI/49,75/forecast"⟩⟩)
      (some ⟨some ⟨some [some ⟨some "Tonight", some 40, some "F", some "5 mph",
        none, some "Clear"⟩]⟩⟩)).1 = Except.ok r) :=
  ⟨c1_handlers_return_envelopes.1 "CA"
    (some ⟨some [⟨some ⟨some "Flood Warning", none, none, none, none⟩⟩]⟩)
    (by decide),
   c1_handlers_return_envelopes.2.1 40 (-75)
    (some ⟨some ⟨some "https://api.weather.gov/gridpoints/PHI/49,75/forecast"⟩⟩)
    (some ⟨some ⟨some [some ⟨some "Tonight", some 40, some "F", some "5 mph",
      none, some "Clear"⟩]⟩⟩)
    (by decide)⟩

/-- C2 (counterexample): a `get-forecast` invocation whose grid lookup
succeeds with a forecast URL performs two outbound HTTP calls, refuting "at
most one outbound call per invocation". -/
theorem c2_counterexample :
    ¬ ((getForecast 40 (-75)
        (some ⟨some ⟨some "https://api.weather.gov/gridpoints/PHI/49,75/forecast"⟩⟩)
        none).2.length ≤ 1) := by
  decide

/-- C2 (amended): `get-alerts`, `register-notification`,
`get-user-notifications` and `get-latest-token-price` each perform exactly one
outbound HTTP call per invocation; `get-forecast` performs at most two. -/
theorem c2_call_count_bounds :
    (∀ state d, (getAlerts state d).2.length = 1) ∧
    (∀ lat lon pd fd, (getForecast lat lon pd fd).2.length ≤ 2) ∧
    (∀ sid tok tp pr, (registerNotification sid tok tp pr).2.length = 1) ∧
    (∀ sid fr, (getUserNotifications sid fr).2.length = 1) ∧
    (∀ fr, (getLatestTokenPrice fr).2.length = 1) := by
  refine ⟨?_, ?_, ?_, ?_, ?_⟩
  · intro state d
    cases d with
    | none => rfl
    | some d =>
      simp only [getAlerts]
      split
      · rfl
      · split <;> rfl
  · intro lat lon pd fd
    cases pd with
    | none => simp [getForecast]
    | some pd =>
      cases fd with
      | none => simp only [getForecast]; split <;> simp
      | some fd =>
        simp only [getForecast]
        split
        · simp
        · split
          · simp
          · split <;> simp
  · intro sid tok tp pr
    cases pr <;> rfl
  · intro sid fr
    cases fr with
    | error e => rfl
    | ok d =>
      cases h : d.userNotifications with
      | none => simp [getUserNotifications, h]
      | some l => simp only [getUserNotifications, h]; split <;> rfl
  · intro fr
    cases fr with
    | error e => rfl
    | ok r => simp only [getLatestTokenPrice]; split <;> rfl

/-- C3: for every status code (2xx or not) and every body, the
`register-notification` success text embeds the raw response body verbatim —
the handler never consults the status of the settled POST. -/
theorem c3_register_embeds_body_ignores_status
    (sid tok tp : String) (status : Nat) (body : String) :
    registerNotification sid tok tp (Except.ok ⟨status, body⟩) =
      (mkText ("âœ… Price alert registered successfully:\n\n" ++ body),
       ["http://localhost:3001/api/notification"]) := rfl

/-- C4: when the grid lookup succeeds but carries no nested `forecast` URL,
`get-forecast` issues only the one points request and returns the single
URL-missing text block. -/
theorem c4_missing_forecast_url_short_circuits
    (lat lon : ℚ) (pd : PointsResponse) (fd : Option ForecastResponse)
    (h : pd.properties.bind (fun p => p.forecast) = none) :
    getForecast lat lon (some pd) fd =
      (Except.ok (mkText "Failed to get forecast URL from grid point data"),
       [pointsUrlOf lat lon]) := by
  simp [getForecast, h]

/-- C4 witness: a points response with no `properties` object at all. -/
theorem c4_witness :
    getForecast 1 2 (some ⟨none⟩) none =
      (Except.ok (mkText "Failed to get forecast URL from grid point data"),
       [pointsUrlOf 1 2]) :=
  c4_missing_forecast_url_short_circuits 1 2 ⟨none⟩ none rfl

/-- C5: on every success and failure path of every handler, the returned
envelope (when one is returned at all) holds exactly one content block, and
that block has type `text`. -/
theorem c5_single_text_block :
    (∀ state d r, (getAlerts state d).1 = Except.ok r →
      ∃ t, r.content = [⟨"text", t⟩]) ∧
    (∀ lat lon pd fd r, (getForecast lat lon pd fd).1 = Except.ok r →
      ∃ t, r.content = [⟨"text", t⟩]) ∧
    (∀ sid tok tp pr, ∃ t,
      (registerNotification sid tok tp pr).1.content = [⟨"text", t⟩]) ∧
    (∀ sid fr, ∃ t, (getUserNotifications sid fr).1.content = [⟨"text", t⟩]) ∧
    (∀ fr, ∃ t, (getLatestTokenPrice fr).1.content = [⟨"text", t⟩]) := by
  refine ⟨?_, ?_, ?_, ?_, ?_⟩
  · intro state d r hr
    cases d with
    | none => cases hr; exact ⟨_, rfl⟩
    | some d =>
      simp only [getAlerts] at hr
      split at hr
      · cases hr; exact ⟨_, rfl⟩
      · split at hr
        · cases hr
        · cases hr; exact ⟨_, rfl⟩
  · intro lat lon pd fd r hr
    cases pd with
    | none => cases hr; exact ⟨_, rfl⟩
    | some pd =>
      cases fd with
      | none =>
        simp only [getForecast] at hr
        split at hr <;> (cases hr; exact ⟨_, rfl⟩)
      | some fd =>
        simp only [getForecast] at hr
        split at hr
        · cases hr; exact ⟨_, rfl⟩
        · split at hr
          · cases hr; exact ⟨_, rfl⟩
          · split at hr
            · cases hr
            · cases hr; exact ⟨_, rfl⟩
  · intro sid tok tp pr
    cases pr <;> exact ⟨_, rfl⟩
  · intro sid fr
    cases fr with
    | error e => exact ⟨_, rfl⟩
    | ok d =>
      cases h : d.userNotifications with
      | none => simp only [getUserNotifications, h]; exact ⟨_, rfl⟩
      | some l =>
        simp only [getUserNotifications, h]
        split <;> exact ⟨_, rfl⟩
  · intro fr
    cases fr with
    | error e => exact ⟨_, rfl⟩
    | ok r => simp only [getLatestTokenPrice]; split <;> exact ⟨_, rfl⟩

/-- C5 witness: the failed-lookup path of `get-alerts` yields one text block. -/
theorem c5_witness :
    ∃ t, (mkText "Failed to retrieve alerts data").content = [⟨"text", t⟩] :=
  c5_single_text_block.1 "CA" none (mkText "Failed to retrieve alerts data") rfl

/-- C6: an alert feature whose `properties` object is present but has all five
fields absent formats to exactly the placeholder block. -/
theorem c6_all_absent_alert_format :
    formatAlert ⟨some ⟨none, none, none, none, none⟩⟩ =
      Except.ok "Event: Unknown\nArea: Unknown\nSeverity: Unknown\nStatus: Unknown\nHeadline: No headline\n---" := rfl

/-- C7 (counterexample): the claim quantifies over every period whose
`windSpeed` is present, but a present-but-empty `windSpeed` is falsy, so the
wind line reads `Wind: Unknown ` rather than the claimed speed followed by a
trailing space (which would here be `Wind:  `). -/
theorem c7_counterexample :
    (periodLines ⟨some "Tonight", some 40, some "F", some "", none, some "Clear"⟩)[2]? =
      some "Wind: Unknown " ∧
    ("Wind: Unknown " : String) ≠ "Wind: " ++ "" ++ " " := by
  constructor
  · rfl
  · decide

/-- C7 (amended): for every forecast period whose `windDirection` is absent
and whose `windSpeed` is present and non-empty, the wind line is the wind
speed followed by a single trailing space and an empty direction. -/
theorem c7_wind_line_trailing_space (p : ForecastPeriod) (s : String)
    (hd : p.windDirection = none) (hs : p.windSpeed = some s) (hne : s ≠ "") :
    (periodLines p)[2]? = some ("Wind: " ++ s ++ " ") := by
  rcases p with ⟨n, t, u, w, d, f⟩
  simp only at hd hs
  subst hd hs
  simp [periodLines, jsOrStr, hne]

/-- C7 witness: the spec's `Tonight` period formats its wind line as
`Wind: 5 mph ` with the trailing space. -/
theorem c7_witness :
    (periodLines ⟨some "Tonight", some 40, some "F", some "5 mph", none,
      some "Clear"⟩)[2]? = some ("Wind: " ++ "5 mph" ++ " ") :=
  c7_wind_line_trailing_space _ "5 mph" rfl rfl (by decide)

/-- C8: for every in-range coordinate pair, the first URL `get-forecast`
requests is the grid-lookup URL built from `toFixed(4)` of both coordinates,
and each formatted coordinate has exactly four digits after its decimal
point. -/
theorem c8_points_url_four_decimals (lat lon : ℚ)
    (pd : Option PointsResponse) (fd : Option ForecastResponse)
    (h1 : -90 ≤ lat) (h2 : lat ≤ 90) (h3 : -180 ≤ lon) (h4 : lon ≤ 180) :
    (getForecast lat lon pd fd).2.head? = some (pointsUrlOf lat lon) ∧
    pointsUrlOf lat lon =
      NWS_API_BASE ++ "/points/" ++ jsToFixed4 lat ++ "," ++ jsToFixed4 lon ∧
    decimalCount (jsToFixed4 lat) = 4 ∧ decimalCount (jsToFixed4 lon) = 4 := by
  refine ⟨?_, rfl, decimalCount_jsToFixed4 lat, decimalCount_jsToFixed4 lon⟩
  cases pd with
  | none => rfl
  | some pd =>
    cases fd with
    | none => simp only [getForecast]; split <;> rfl
    | some fd =>
      simp only [getForecast]
      split
      · rfl
      · split
        · rfl
        · split <;> rfl

/-- C8 witness: the coordinate pair (45, -120). -/
theorem c8_witness :
    (getForecast 45 (-120) none none).2.head? = some (pointsUrlOf 45 (-120)) ∧
    pointsUrlOf 45 (-120) =
      NWS_API_BASE ++ "/points/" ++ jsToFixed4 45 ++ "," ++ jsToFixed4 (-120) ∧
    decimalCount (jsToFixed4 45) = 4 ∧ decimalCount (jsToFixed4 (-120)) = 4 :=
  c8_points_url_four_decimals 45 (-120) none none (by norm_num) (by norm_num)
    (by norm_num) (by norm_num)

/-- C9: when the notification service responds with an empty or absent
`userNotifications` list, `get-user-notifications` returns the single
no-notifications message, which contains the session id and enumerates no
entries. -/
theorem c9_empty_notifications_message (sid : String)
    (data : UserNotificationResponse)
    (h : data.userNotifications = none ∨ data.userNotifications = some []) :
    getUserNotifications sid (Except.ok data) =
      (mkText ("â„¹ï¸ No notifications found for session: " ++ sid),
       ["http://localhost:3001/api/userNotification?session_id=" ++ sid]) ∧
    (∃ pre post : String,
      "â„¹ï¸ No notifications found for session: " ++ sid = pre ++ sid ++ post) := by
  refine ⟨?_, "â„¹ï¸ No notifications found for session: ", "", by simp⟩
  rcases h with h | h <;> simp [getUserNotifications, h]

/-- C9 witness: session `"abc"` with an absent list. -/
theorem c9_witness :
    getUserNotifications "abc" (Except.ok ⟨none, none⟩) =
      (mkText ("â„¹ï¸ No notifications found for session: " ++ "abc"),
       ["http://localhost:3001/api/userNotification?session_id=" ++ "abc"]) ∧
    (∃ pre post : String,
      "â„¹ï¸ No notifications found for session: " ++ "abc" =
        pre ++ "abc" ++ post) :=
  c9_empty_notifications_message "abc" ⟨none, none⟩ (Or.inl rfl)

/-- C10: JS truthiness makes present-but-falsy fields render as their
placeholders: a temperature of 0 renders as `Temperature: Unknown` with the
unit still appended, and alert fields that are present but empty format
exactly as if they were absent. -/
theorem c10_falsy_fields_render_placeholders :
    (∀ p : ForecastPeriod, p.temperature = some 0 →
      (periodLines p)[1]? =
        some ("Temperature: " ++ "Unknown" ++ "Â°" ++ jsOrStr p.temperatureUnit "F")) ∧
    (∀ props : AlertProps,
      formatAlert ⟨some props⟩ =
        formatAlert ⟨some ⟨emptyToNone props.event, emptyToNone props.areaDesc,
          emptyToNone props.severity, emptyToNone props.status,
          emptyToNone props.headline⟩⟩) := by
  constructor
  · intro p hp
    rcases p with ⟨n, t, u, w, d, f⟩
    simp only at hp
    subst hp
    simp [periodLines, jsOrNum]
  · intro props
    simp [formatAlert, jsOrStr_emptyToNone]

/-- C10 witness: a zero-temperature period, and an alert whose five fields are
all present but empty. -/
theorem c10_witness :
    (periodLines ⟨some "Tonight", some 0, some "F", some "5 mph", some "NW",
      some "Clear"⟩)[1]? =
        some ("Temperature: " ++ "Unknown" ++ "Â°" ++ jsOrStr (some "F") "F") ∧
    formatAlert ⟨some ⟨some "", some "", some "", some "", some ""⟩⟩ =
      formatAlert ⟨some ⟨emptyToNone (some ""), emptyToNone (some ""),
        emptyToNone (some ""), emptyToNone (some ""), emptyToNone (some "")⟩⟩ :=
  ⟨c10_falsy_fields_render_placeholders.1 _ rfl,
   c10_falsy_fields_render_placeholders.2 ⟨some "", some "", some "", some "", some ""⟩⟩

end NotificationMcp
